import Mathlib

/-!
Verification of the gomemcache client's wire-protocol drivers.

The development embeds the pure core of the two protocol drivers:

* the `text` driver (line-oriented memcached ASCII protocol): key
  validation, store/delete/touch request construction and response-line
  classification, and the payload read of a retrieval response;
* the `bin` driver (24-byte-header memcached binary protocol): status-code
  to error mapping, verb-to-opcode mapping, the conditional-store error
  translation in `Populate`, and the 8-byte counter decode in `IncrDecr`.

Byte strings (keys, values, wire lines, streams) are modelled as `List Nat`
with each element a byte value; Go strings are bytes, so this is faithful.
A Go `error` result is modelled as `Option MCError` (`none` = nil = success),
and fallible reads as `Except`.
-/

/-- Bytes of an ASCII string literal. -/
def strBytes (s : String) : List Nat :=
  s.toList.map Char.toNat

/-- Decimal ASCII rendering of a natural number, as Go fmt `%d` prints an
unsigned integer. -/
def natDecimal (n : Nat) : List Nat :=
  (Nat.toDigits 10 n).map Char.toNat

/-- Decimal ASCII rendering of an integer, as Go fmt `%d` prints a signed
integer (a leading 0x2D minus sign when negative). -/
def intDecimal (i : Int) : List Nat :=
  if i < 0 then 45 :: natDecimal i.natAbs else natDecimal i.natAbs

/-- The CRLF line terminator bytes. -/
def crlf : List Nat := [13, 10]

/-- A single ASCII space byte, the token separator of the text protocol. -/
def space : List Nat := [32]

namespace types

/-- Verbs are Go strings (`type Verb string`, verbs.go). -/
abbrev Verb := String

/-- Verb constant `set` (verbs.go). -/
def Set : Verb := "set"

/-- Verb constant `add` (verbs.go). -/
def Add : Verb := "add"

/-- Verb constant `replace` (verbs.go). -/
def Replace : Verb := "replace"

/-- Verb constant `cas` (verbs.go). -/
def Cas : Verb := "cas"

/-- Verb constant `incr` (verbs.go). -/
def Incr : Verb := "incr"

/-- Verb constant `decr` (verbs.go). -/
def Decr : Verb := "decr"

/-- The client's error taxonomy. The sentinel `Err*` values of the `types`
package are the nullary constructors; the `fmt.Errorf` transport/framing
errors of the drivers are modelled by the tagged constructors:
`protocolError line` for an unexpected response line (carrying the line),
`corruptGet` for a retrieval payload whose trailing CRLF is missing, and
`ioError` for a failed or short read on the stream. -/
inductive MCError where
  | ErrCacheMiss
  | ErrCASConflict
  | ErrNotStored
  | ErrServerError
  | ErrNoStats
  | ErrMalformedKey
  | ErrNoServers
  | ErrValueTooLarge
  | ErrInvalidArgs
  | ErrValueNotStored
  | ErrNonNumeric
  | ErrAuthRequired
  | ErrAuthContinue
  | ErrUnknownCommand
  | ErrOutOfMemory
  | ErrUnknownError
  | protocolError (line : List Nat)
  | corruptGet
  | ioError
  deriving DecidableEq, Repr

/-- The unit of value exchange (the `Item` record). `key` and `value` are
byte strings; `flags` is a uint32, `expiration` an int32, `casid` a
uint64. -/
structure Item where
  key : List Nat
  value : List Nat
  flags : Nat
  expiration : Int
  casid : Nat
  deriving DecidableEq, Repr

end types

namespace text

/-- Modelled from the spec: the response-line byte constants of the text
driver live in a source file missing from the snapshot; §4.E/§6 fix the
wire format to the memcached ASCII protocol with CRLF-terminated lines, so
`resultOK` is the line `OK` with CRLF. -/
def resultOK : List Nat := strBytes ("OK") ++ crlf

/-- Modelled from the spec: the `STORED` store-response line (§4.E). -/
def resultStored : List Nat := strBytes ("STORED") ++ crlf

/-- Modelled from the spec: the `NOT_STORED` store-response line (§4.E). -/
def resultNotStored : List Nat := strBytes ("NOT_STORED") ++ crlf

/-- Modelled from the spec: the `EXISTS` store-response line (§4.E). -/
def resultExists : List Nat := strBytes ("EXISTS") ++ crlf

/-- Modelled from the spec: the `NOT_FOUND` response line (§4.E). -/
def resultNotFound : List Nat := strBytes ("NOT_FOUND") ++ crlf

/-- Modelled from the spec: the `DELETED` delete-response line (§4.E). -/
def resultDeleted : List Nat := strBytes ("DELETED") ++ crlf

/-- Modelled from the spec: the `END` retrieval sentinel line (§4.E). -/
def resultEnd : List Nat := strBytes ("END") ++ crlf

/-- Modelled from the spec: the touch reply line of the memcached ASCII
protocol (§6 fixes the wire format), `TOUCHED` with CRLF. -/
def resultTouched : List Nat := strBytes ("TOUCHED") ++ crlf

/-- Key legality of the text driver (`LegalKey`): at most 250 bytes and no
byte that is ≤ 0x20 or equal to 0x7F. -/
def LegalKey (key : List Nat) : Bool :=
  if key.length > 250 then false
  else key.all (fun b => !(decide (b ≤ 0x20) || decide (b = 0x7f)))

/-- The store request line written by `Populate`:
`fmt.Fprintf "%s %s %d %d %d %d\r\n"` when the verb is `cas` (the cas token
appended last), `"%s %s %d %d %d\r\n"` otherwise. -/
def storeRequestLine (verb : types.Verb) (item : types.Item) : List Nat :=
  if verb = types.Cas then
    strBytes verb ++ space ++ item.key ++ space ++ natDecimal item.flags ++ space ++
      intDecimal item.expiration ++ space ++ natDecimal item.value.length ++ space ++
      natDecimal item.casid ++ crlf
  else
    strBytes verb ++ space ++ item.key ++ space ++ natDecimal item.flags ++ space ++
      intDecimal item.expiration ++ space ++ natDecimal item.value.length ++ crlf

/-- The request line of a store without the optional trailing cas token,
used to state how the two `Populate` format strings relate. -/
def storeBase (verb : types.Verb) (item : types.Item) : List Nat :=
  strBytes verb ++ space ++ item.key ++ space ++ natDecimal item.flags ++ space ++
    intDecimal item.expiration ++ space ++ natDecimal item.value.length

/-- The text driver's `Populate`: reject illegal keys with `ErrMalformedKey`
before any write; otherwise write the request line, the value and CRLF, and
classify the single response line (`STORED` → nil, `NOT_STORED`,
`EXISTS`, `NOT_FOUND`, anything else an unexpected-response error carrying
the line). The first component is the bytes written (`none` when the key
check short-circuits before any I/O). -/
def Populate (verb : types.Verb) (item : types.Item) (line : List Nat) :
    Option (List Nat) × Option types.MCError :=
  if !(LegalKey item.key) then (none, some .ErrMalformedKey)
  else
    (some (storeRequestLine verb item ++ item.value ++ crlf),
      if line = resultStored then none
      else if line = resultNotStored then some .ErrNotStored
      else if line = resultExists then some .ErrCASConflict
      else if line = resultNotFound then some .ErrCacheMiss
      else some (.protocolError line))

/-- The shared response classifier `writeExpectf` (one expected line plus
the fixed alternatives): `OK` → nil, the expected line → nil,
`NOT_STORED` → ErrNotStored, `EXISTS` → ErrCASConflict, `NOT_FOUND` →
ErrCacheMiss, anything else an unexpected-response error. -/
def writeExpect (expected line : List Nat) : Option types.MCError :=
  if line = resultOK then none
  else if line = expected then none
  else if line = resultNotStored then some .ErrNotStored
  else if line = resultExists then some .ErrCASConflict
  else if line = resultNotFound then some .ErrCacheMiss
  else some (.protocolError line)

/-- The text driver's `Delete`: writes `delete <key>` and classifies the
response through `writeExpect` with expected line `DELETED`. -/
def Delete (key : List Nat) (line : List Nat) : List Nat × Option types.MCError :=
  (strBytes ("delete") ++ space ++ key ++ crlf, writeExpect resultDeleted line)

/-- The text driver's `DeleteAll`: writes `flush_all` and classifies the
response through `writeExpect` with expected line `DELETED`. -/
def DeleteAll (line : List Nat) : Option types.MCError :=
  writeExpect resultDeleted line

/-- The text driver's `FlushAll`: writes `flush_all` and classifies the
response through `writeExpect` with expected line `OK`. -/
def FlushAll (line : List Nat) : Option types.MCError :=
  writeExpect resultOK line

/-- One iteration of the text driver's `Touch`: the bytes written
(`touch <key> <expiration>` with CRLF) and the classification of the
response line (`TOUCHED` → continue with nil, `NOT_FOUND` → ErrCacheMiss,
anything else an unexpected-response error). -/
def touchOne (key : List Nat) (expiration : Int) (line : List Nat) :
    List Nat × Option types.MCError :=
  (strBytes ("touch") ++ space ++ key ++ space ++ intDecimal expiration ++ crlf,
    if line = resultTouched then none
    else if line = resultNotFound then some .ErrCacheMiss
    else some (.protocolError line))

/-- Go `bytes.HasSuffix`: the candidate suffix is no longer than the string
and equals its tail of that length. -/
def hasSuffix (s sfx : List Nat) : Bool :=
  decide (sfx.length ≤ s.length) && decide (s.drop (s.length - sfx.length) = sfx)

/-- The per-record payload read of `parseGetResponse`: allocate and fill
`size + 2` bytes from the stream (`io.ReadFull`, a short stream is a read
error), require the buffer to end in CRLF (else the corrupt-get error), and
deliver the first `size` bytes together with the unread rest of the
stream. -/
def readValuePayload (size : Nat) (stream : List Nat) :
    Except types.MCError (List Nat × List Nat) :=
  if stream.length < size + 2 then .error .ioError
  else if hasSuffix (stream.take (size + 2)) crlf then
    .ok ((stream.take (size + 2)).take size, stream.drop (size + 2))
  else .error .corruptGet

end text

namespace bin

/-- Status code 0x0000, no error (proto.go). -/
def StatusOK : Nat := 0

/-- Status code 0x0001, key not found (proto.go). -/
def StatusNotFound : Nat := 1

/-- Status code 0x0002, key exists (proto.go). -/
def StatusKeyExists : Nat := 2

/-- Status code 0x0003, value too large (proto.go). -/
def StatusValueTooLarge : Nat := 3

/-- Status code 0x0004, invalid arguments (proto.go). -/
def StatusInvalidArgs : Nat := 4

/-- Status code 0x0005, value not stored (proto.go). -/
def StatusValueNotStored : Nat := 5

/-- Status code 0x0006, non-numeric value (proto.go). -/
def StatusNonNumeric : Nat := 6

/-- Status code 0x0020, authentication required (proto.go). -/
def StatusAuthRequired : Nat := 0x20

/-- Status code 0x0021, authentication continue (proto.go). -/
def StatusAuthContinue : Nat := 0x21

/-- Status code 0x0081, unknown command (proto.go). -/
def StatusUnknownCommand : Nat := 0x81

/-- Status code 0x0082, out of memory (proto.go). -/
def StatusOutOfMemory : Nat := 0x82

/-- The binary driver's status-to-error mapping `newError` (proto.go):
each recognised status yields its sentinel error, status 0 yields nil, and
any other status yields `ErrUnknownError`. -/
def newError (status : Nat) : Option types.MCError :=
  if status = StatusOK then none
  else if status = StatusNotFound then some .ErrCacheMiss
  else if status = StatusKeyExists then some .ErrCASConflict
  else if status = StatusValueTooLarge then some .ErrValueTooLarge
  else if status = StatusInvalidArgs then some .ErrInvalidArgs
  else if status = StatusValueNotStored then some .ErrValueNotStored
  else if status = StatusNonNumeric then some .ErrNonNumeric
  else if status = StatusAuthRequired then some .ErrAuthRequired
  else if status = StatusAuthContinue then some .ErrAuthContinue
  else if status = StatusUnknownCommand then some .ErrUnknownCommand
  else if status = StatusOutOfMemory then some .ErrOutOfMemory
  else some .ErrUnknownError

/-- Opcode 0x00, get (proto.go iota). -/
def opGet : Nat := 0

/-- Opcode 0x01, set (proto.go iota). -/
def opSet : Nat := 1

/-- Opcode 0x02, add (proto.go iota). -/
def opAdd : Nat := 2

/-- Opcode 0x03, replace (proto.go iota). -/
def opReplace : Nat := 3

/-- Opcode 0x04, delete (proto.go iota). -/
def opDelete : Nat := 4

/-- Opcode 0x05, increment (proto.go iota). -/
def opIncrement : Nat := 5

/-- Opcode 0x06, decrement (proto.go iota). -/
def opDecrement : Nat := 6

/-- Opcode 0x08, flush (proto.go iota). -/
def opFlush : Nat := 8

/-- Opcode 0x0B, version (proto.go iota). -/
def opVersion : Nat := 11

/-- Opcode 0x1C, touch (proto.go iota). -/
def opTouch : Nat := 28

/-- The binary driver's `verbToOp` (cmd.go): the six recognised verbs map
to their opcodes (`cas` reuses the set opcode); every other verb falls
through to the version opcode. -/
def verbToOp (verb : types.Verb) : Nat :=
  if verb = "incr" then opIncrement
  else if verb = "decr" then opDecrement
  else if verb = "cas" then opSet
  else if verb = "set" then opSet
  else if verb = "add" then opAdd
  else if verb = "replace" then opReplace
  else opVersion

/-- Big-endian serialization of a uint32 into four bytes. -/
def be32 (n : Nat) : List Nat :=
  [n / 2 ^ 24 % 256, n / 2 ^ 16 % 256, n / 2 ^ 8 % 256, n % 256]

/-- Big-endian serialization of a uint64 into eight bytes. -/
def be64 (n : Nat) : List Nat :=
  [n / 2 ^ 56 % 256, n / 2 ^ 48 % 256, n / 2 ^ 40 % 256, n / 2 ^ 32 % 256,
    n / 2 ^ 24 % 256, n / 2 ^ 16 % 256, n / 2 ^ 8 % 256, n % 256]

/-- Go conversion `uint32(i)` of a signed 32-bit value: the value modulo
2^32 in two's complement. -/
def u32ofInt (i : Int) : Nat :=
  (i % 2 ^ 32).toNat

/-- A binary request message as built by the driver: opcode and CAS header
fields, the serialized request extras, key, and value. -/
structure msg where
  op : Nat
  cas : Nat
  iextras : List Nat
  key : List Nat
  val : List Nat
  deriving DecidableEq, Repr

/-- The request message built by the binary driver's `Populate` (cmd.go):
opcode from `verbToOp`, the header CAS taken from the item only for the
`cas` verb, extras the 4-byte flags followed by `uint32(expiration)`. -/
def populateMsg (verb : types.Verb) (item : types.Item) : msg :=
  { op := verbToOp verb
  , cas := if verb = types.Cas then item.casid else 0
  , iextras := be32 item.flags ++ be32 (u32ofInt item.expiration)
  , key := item.key
  , val := item.value }

/-- The error returned by the binary driver's `Populate` given the status
of the server's response (cmd.go). The Go condition is
`err == types.ErrCASConflict && verb == "add" || verb == "replace"`, which
by precedence is `(err == ErrCASConflict && verb == "add") || verb ==
"replace"`; when it holds the result is `ErrNotStored`, otherwise the
status's own error. -/
def Populate (verb : types.Verb) (status : Nat) : Option types.MCError :=
  let err := newError status
  if (err = some .ErrCASConflict ∧ verb = "add") ∨ verb = "replace" then
    some .ErrNotStored
  else err

/-- The request message built by the binary driver's `IncrDecr` (cmd.go):
opcode from `verbToOp`, extras the 8-byte delta, the 8-byte initial value 0
and the 4-byte expiration 0xFFFFFFFF. -/
def incrDecrMsg (verb : types.Verb) (key : List Nat) (delta : Nat) : msg :=
  { op := verbToOp verb
  , cas := 0
  , iextras := be64 delta ++ be64 0 ++ be32 0xffffffff
  , key := key
  , val := [] }

/-- The binary driver's `readInt` (cmd.go): an 8-byte value decodes as a
big-endian uint64; any other length is the parse error (modelled as
`none`). -/
def readInt (b : List Nat) : Option Nat :=
  match b with
  | [b0, b1, b2, b3, b4, b5, b6, b7] =>
    some (b7 ||| b6 <<< 8 ||| b5 <<< 16 ||| b4 <<< 24 |||
      b3 <<< 32 ||| b2 <<< 40 ||| b1 <<< 48 ||| b0 <<< 56)
  | _ => none

/-- The value/error pair returned by the binary driver's `IncrDecr` given
the response status and value bytes (cmd.go): a non-OK status returns
`(0, err)`; on OK the code runs `val, err := readInt(string(m.val))` and
then `return val, nil`, so a failed decode yields the pair `(0, nil)` —
the decode error is dropped. -/
def IncrDecr (status : Nat) (rval : List Nat) : Nat × Option types.MCError :=
  match newError status with
  | some e => (0, some e)
  | none =>
    match readInt rval with
    | some v => (v, none)
    | none => (0, none)

/-- The binary driver's `LegalKey` (cmd.go): accepts every key. -/
def LegalKey (key : List Nat) : Bool :=
  true

end bin

/-- An example item with a legal single-byte key, used to instantiate
universally quantified results. -/
def itemEx : types.Item :=
  { key := [107], value := [118], flags := 1, expiration := 2, casid := 3 }

/-- An example item whose key is the empty byte string. -/
def emptyKeyItem : types.Item :=
  { key := [], value := [], flags := 0, expiration := 0, casid := 0 }

/-- An example item whose key contains the space byte 0x20 and so is
illegal for the text driver. -/
def badKeyItem : types.Item :=
  { key := [32], value := [], flags := 0, expiration := 0, casid := 0 }

/-- Claim C1: the conditional-store translation of the binary driver's
`Populate` does not match the claim. The Go guard
`err == ErrCASConflict && verb == "add" || verb == "replace"` parses as
`(err == ErrCASConflict && verb == "add") || verb == "replace"`, so every
REPLACE outcome — including a successful store (status 0x0000) and a cache
miss (status 0x0001) — is remapped to `ErrNotStored`, while ADD with
KeyExists, CAS with KeyExists and ADD success behave as the claim says. -/
theorem c1_bin_populate_replace_always_notstored :
    bin.Populate types.Replace bin.StatusOK = some .ErrNotStored ∧
    bin.Populate types.Replace bin.StatusNotFound = some .ErrNotStored ∧
    bin.Populate types.Add bin.StatusKeyExists = some .ErrNotStored ∧
    bin.Populate types.Cas bin.StatusKeyExists = some .ErrCASConflict ∧
    bin.Populate types.Add bin.StatusOK = none := by
  decide

/-- Claim C2: the binary driver's `IncrDecr` drops the decode error of
`readInt`: on an OK status with a value whose length is not 8 bytes,
`readInt` fails but `IncrDecr` returns the pair `(0, nil)` — success with
value 0 — exactly what the claim forbids. An 8-byte value decodes
normally. -/
theorem c2_bin_incrdecr_drops_decode_error :
    bin.readInt [] = none ∧
    bin.readInt [0, 0, 0, 5] = none ∧
    bin.IncrDecr bin.StatusOK [] = (0, none) ∧
    bin.IncrDecr bin.StatusOK [0, 0, 0, 5] = (0, none) ∧
    bin.IncrDecr bin.StatusOK [0, 0, 0, 0, 0, 0, 0, 5] = (5, none) := by
  decide

/-- Claim C8: the binary status-to-error mapping is exactly the claimed
table — 0x0000 no error, 0x0001 cache miss, 0x0002 CAS conflict, 0x0003
value too large, 0x0004 invalid arguments, 0x0005 value not stored, 0x0006
non-numeric, 0x0020 auth required, 0x0021 auth continue, 0x0081 unknown
command, 0x0082 out of memory, and every other status the unknown error. -/
theorem c8_bin_status_error_table :
    bin.newError 0x0000 = none ∧
    bin.newError 0x0001 = some .ErrCacheMiss ∧
    bin.newError 0x0002 = some .ErrCASConflict ∧
    bin.newError 0x0003 = some .ErrValueTooLarge ∧
    bin.newError 0x0004 = some .ErrInvalidArgs ∧
    bin.newError 0x0005 = some .ErrValueNotStored ∧
    bin.newError 0x0006 = some .ErrNonNumeric ∧
    bin.newError 0x0020 = some .ErrAuthRequired ∧
    bin.newError 0x0021 = some .ErrAuthContinue ∧
    bin.newError 0x0081 = some .ErrUnknownCommand ∧
    bin.newError 0x0082 = some .ErrOutOfMemory ∧
    ∀ status : Nat,
      status ∉ [0x0000, 0x0001, 0x0002, 0x0003, 0x0004, 0x0005, 0x0006,
        0x0020, 0x0021, 0x0081, 0x0082] →
      bin.newError status = some .ErrUnknownError := by
  refine ⟨by decide, by decide, by decide, by decide, by decide, by decide,
    by decide, by decide, by decide, by decide, by decide, ?_⟩
  intro status h
  simp only [List.mem_cons, List.not_mem_nil, or_false, not_or] at h
  obtain ⟨h0, h1, h2, h3, h4, h5, h6, h7, h8, h9, h10⟩ := h
  simp [bin.newError, bin.StatusOK, bin.StatusNotFound, bin.StatusKeyExists,
    bin.StatusValueTooLarge, bin.StatusInvalidArgs, bin.StatusValueNotStored,
    bin.StatusNonNumeric, bin.StatusAuthRequired, bin.StatusAuthContinue,
    bin.StatusUnknownCommand, bin.StatusOutOfMemory,
    h0, h1, h2, h3, h4, h5, h6, h7, h8, h9, h10]

/-- Claim C8 witness: the unlisted status 0x0007 maps to the unknown
error. -/
theorem c8_bin_status_error_table_witness :
    bin.newError 7 = some .ErrUnknownError :=
  c8_bin_status_error_table.2.2.2.2.2.2.2.2.2.2.2 7 (by decide)

/-- Claim C9: a verb outside {set, add, replace, cas, incr, decr} maps to
the version opcode in `verbToOp`, so the request messages that `Populate`
and `IncrDecr` build for such a verb carry the version opcode, and
`Populate` reports no error for it on an OK response status — the verb is
never rejected client-side. -/
theorem c9_bin_unknown_verb_version (verb : types.Verb) (item : types.Item)
    (key : List Nat) (delta : Nat)
    (h1 : verb ≠ "set") (h2 : verb ≠ "add") (h3 : verb ≠ "replace")
    (h4 : verb ≠ "cas") (h5 : verb ≠ "incr") (h6 : verb ≠ "decr") :
    bin.verbToOp verb = bin.opVersion ∧
    (bin.populateMsg verb item).op = bin.opVersion ∧
    (bin.incrDecrMsg verb key delta).op = bin.opVersion ∧
    bin.Populate verb bin.StatusOK = none := by
  have hop : bin.verbToOp verb = bin.opVersion := by
    simp [bin.verbToOp, h1, h2, h3, h4, h5, h6]
  refine ⟨hop, hop, hop, ?_⟩
  simp [bin.Populate, bin.newError, bin.StatusOK, h3]

/-- Claim C9 witness: the verb `touch`, not handled by `verbToOp`, is sent
as a version request and not rejected. -/
theorem c9_bin_unknown_verb_version_witness :
    bin.verbToOp ("touch") = bin.opVersion ∧
    (bin.populateMsg ("touch") itemEx).op = bin.opVersion ∧
    (bin.incrDecrMsg ("touch") [107] 1).op = bin.opVersion ∧
    bin.Populate ("touch") bin.StatusOK = none :=
  c9_bin_unknown_verb_version ("touch") itemEx [107] 1 (by decide) (by decide)
    (by decide) (by decide) (by decide) (by decide)

/-- Claim C3 counterexample: the claim says both drivers reject the empty
key (`LegalKey("") = false`); in the code both drivers accept it. -/
theorem c3_empty_key_counterexample :
    text.LegalKey [] = true ∧ bin.LegalKey [] = true := by
  decide

/-- Claim C3 (amended): neither driver rejects the empty key — `LegalKey`
of the empty byte string is true for the text driver and for the binary
driver, and the text driver's `Populate` on an empty-key item proceeds to
the exchange instead of returning the malformed-key error. -/
theorem c3_empty_key_accepted :
    text.LegalKey [] = true ∧ bin.LegalKey [] = true ∧
    (text.Populate types.Set emptyKeyItem text.resultStored).2 = none := by
  decide

/-- The text key predicate holds exactly on keys of at most 250 bytes all
of whose bytes exceed 0x20 and differ from 0x7F. -/
theorem text_LegalKey_iff (key : List Nat) :
    text.LegalKey key = true ↔
      key.length ≤ 250 ∧ ∀ b ∈ key, 0x20 < b ∧ b ≠ 0x7f := by
  unfold text.LegalKey
  by_cases hl : key.length > 250
  · simp only [hl, if_true]
    constructor
    · intro h
      exact absurd h (by simp)
    · intro h
      omega
  · simp only [hl, if_false]
    rw [List.all_eq_true]
    constructor
    · intro h
      refine ⟨by omega, fun b hb => ?_⟩
      have hx := h b hb
      simp only [Bool.not_eq_eq_eq_not, Bool.not_true, Bool.or_eq_false_iff,
        decide_eq_false_iff_not, not_le] at hx
      exact ⟨hx.1, hx.2⟩
    · rintro ⟨-, h2⟩ b hb
      have hx := h2 b hb
      simp only [Bool.not_eq_eq_eq_not, Bool.not_true, Bool.or_eq_false_iff,
        decide_eq_false_iff_not, not_le]
      exact ⟨hx.1, hx.2⟩

/-- Claim C5: the text driver's key-legality predicate holds exactly for
keys of length at most 250 all of whose bytes are strictly greater than
0x20 and different from 0x7F, and `Populate` on an item with an illegal
key returns the malformed-key error with no bytes written. -/
theorem c5_text_legalkey_and_short_circuit (key : List Nat)
    (verb : types.Verb) (item : types.Item) (line : List Nat) :
    (text.LegalKey key = true ↔
      key.length ≤ 250 ∧ ∀ b ∈ key, 0x20 < b ∧ b ≠ 0x7f) ∧
    (text.LegalKey item.key = false →
      text.Populate verb item line = (none, some .ErrMalformedKey)) := by
  refine ⟨text_LegalKey_iff key, fun h => ?_⟩
  simp [text.Populate, h]

/-- Claim C5 witness: the key consisting of the single byte 0x20 is
illegal, and a store of an item with that key short-circuits to the
malformed-key error without writing. -/
theorem c5_text_legalkey_and_short_circuit_witness :
    text.LegalKey [32] = false ∧
    text.Populate types.Set badKeyItem [] = (none, some .ErrMalformedKey) :=
  ⟨by decide,
    (c5_text_legalkey_and_short_circuit [32] types.Set badKeyItem []).2 (by decide)⟩

/-- Claim C6: for a store through the text driver's `Populate` on a legal
key, the response line `STORED` yields success, `NOT_STORED` the
not-stored error, `EXISTS` the CAS-conflict error, `NOT_FOUND` the
cache-miss error, any other line the unexpected-response error carrying
that line; and the request line carries the trailing cas token exactly
when the verb is `cas`. -/
theorem c6_text_store_response_and_cas_token (verb : types.Verb)
    (item : types.Item) (hk : text.LegalKey item.key = true) :
    (text.Populate verb item text.resultStored).2 = none ∧
    (text.Populate verb item text.resultNotStored).2 = some .ErrNotStored ∧
    (text.Populate verb item text.resultExists).2 = some .ErrCASConflict ∧
    (text.Populate verb item text.resultNotFound).2 = some .ErrCacheMiss ∧
    (∀ line, line ≠ text.resultStored → line ≠ text.resultNotStored →
      line ≠ text.resultExists → line ≠ text.resultNotFound →
      (text.Populate verb item line).2 = some (.protocolError line)) ∧
    (verb = types.Cas →
      text.storeRequestLine verb item =
        text.storeBase verb item ++ space ++ natDecimal item.casid ++ crlf) ∧
    (verb ≠ types.Cas →
      text.storeRequestLine verb item = text.storeBase verb item ++ crlf) := by
  have hcls : ∀ line, (text.Populate verb item line).2 =
      (if line = text.resultStored then none
       else if line = text.resultNotStored then some .ErrNotStored
       else if line = text.resultExists then some .ErrCASConflict
       else if line = text.resultNotFound then some .ErrCacheMiss
       else some (.protocolError line)) := by
    intro line
    simp [text.Populate, hk]
  refine ⟨(hcls _).trans (by decide), (hcls _).trans (by decide),
    (hcls _).trans (by decide), (hcls _).trans (by decide),
    fun line n1 n2 n3 n4 => (hcls _).trans (by simp [n1, n2, n3, n4]), ?_, ?_⟩
  · intro hcas
    simp [text.storeRequestLine, text.storeBase, hcas]
  · intro hcas
    simp [text.storeRequestLine, text.storeBase, hcas]

/-- Claim C6 witness: on a concrete legal-key item, `STORED` maps to
success, an `ERROR` line maps to the unexpected-response error, and the
`cas` verb appends the cas token to the request line. -/
theorem c6_text_store_response_and_cas_token_witness :
    (text.Populate types.Set itemEx text.resultStored).2 = none ∧
    (text.Populate types.Set itemEx (strBytes ("ERROR") ++ crlf)).2 =
      some (.protocolError (strBytes ("ERROR") ++ crlf)) ∧
    text.storeRequestLine types.Cas itemEx =
      text.storeBase types.Cas itemEx ++ space ++ natDecimal itemEx.casid ++ crlf :=
  ⟨(c6_text_store_response_and_cas_token types.Set itemEx (by decide)).1,
    (c6_text_store_response_and_cas_token types.Set itemEx (by decide)).2.2.2.2.1
      _ (by decide) (by decide) (by decide) (by decide),
    (c6_text_store_response_and_cas_token types.Cas itemEx (by decide)).2.2.2.2.2.1
      rfl⟩

/-- Claim C7: for a VALUE record declaring `size` bytes, when the stream
holds at least `size + 2` bytes the driver consumes exactly `size + 2` of
them; it succeeds and delivers the first `size` bytes as the value exactly
when the two bytes after the value are CRLF, and otherwise returns the
corrupt-get protocol error and delivers nothing. -/
theorem c7_text_value_payload (size : Nat) (stream : List Nat)
    (h : size + 2 ≤ stream.length) :
    ((stream.take (size + 2)).drop size = crlf →
      text.readValuePayload size stream =
        .ok (stream.take size, stream.drop (size + 2))) ∧
    ((stream.take (size + 2)).drop size ≠ crlf →
      text.readValuePayload size stream = .error .corruptGet) := by
  have hnl : ¬ stream.length < size + 2 := by omega
  have hlen : (stream.take (size + 2)).length = size + 2 := by
    rw [List.length_take]
    omega
  have hsfx : text.hasSuffix (stream.take (size + 2)) crlf =
      decide ((stream.take (size + 2)).drop size = crlf) := by
    unfold text.hasSuffix
    rw [hlen]
    have h2 : crlf.length = 2 := rfl
    rw [h2]
    have h3 : size + 2 - 2 = size := by omega
    rw [h3]
    simp
  constructor
  · intro hc
    have htrue : text.hasSuffix (stream.take (size + 2)) crlf = true := by
      rw [hsfx]
      exact decide_eq_true hc
    unfold text.readValuePayload
    rw [if_neg hnl, if_pos htrue, List.take_take, Nat.min_eq_left (by omega)]
  · intro hc
    have hfalse : text.hasSuffix (stream.take (size + 2)) crlf = false := by
      rw [hsfx]
      exact decide_eq_false hc
    unfold text.readValuePayload
    rw [if_neg hnl]
    simp [hfalse]

/-- Claim C7 witness: a 1-byte value followed by CRLF is delivered with the
rest of the stream intact, and the same record without the CRLF is the
corrupt-get error. -/
theorem c7_text_value_payload_witness :
    text.readValuePayload 1 [65, 13, 10, 99] = .ok ([65], [99]) ∧
    text.readValuePayload 1 [65, 66, 67, 99] = .error .corruptGet :=
  ⟨(c7_text_value_payload 1 [65, 13, 10, 99] (by decide)).1 (by decide),
    (c7_text_value_payload 1 [65, 66, 67, 99] (by decide)).2 (by decide)⟩

/-- Claim C10: the text driver's `Delete` classifies its response through
the classifier shared with `DeleteAll` and `FlushAll`, so besides the
documented `DELETED` → success and `NOT_FOUND` → cache miss it also
accepts `OK` as success, maps `NOT_STORED` to the not-stored error and
`EXISTS` to the CAS-conflict error. -/
theorem c10_text_delete_shared_classifier (key line : List Nat) :
    (text.Delete key text.resultDeleted).2 = none ∧
    (text.Delete key text.resultNotFound).2 = some .ErrCacheMiss ∧
    (text.Delete key text.resultOK).2 = none ∧
    (text.Delete key text.resultNotStored).2 = some .ErrNotStored ∧
    (text.Delete key text.resultExists).2 = some .ErrCASConflict ∧
    (text.Delete key line).2 = text.writeExpect text.resultDeleted line ∧
    text.DeleteAll line = text.writeExpect text.resultDeleted line ∧
    text.FlushAll line = text.writeExpect text.resultOK line := by
  refine ⟨by simp only [text.Delete]; decide, by simp only [text.Delete]; decide,
    by simp only [text.Delete]; decide, by simp only [text.Delete]; decide,
    by simp only [text.Delete]; decide, rfl, rfl, rfl⟩

/-- Claim C4 counterexample: the claim says the text driver performs no
touch exchange; on the concrete key `k` with expiration 2, the driver's
`Touch` iteration writes a non-empty touch command and returns success on
a `TOUCHED` reply instead of a "not supported" error. -/
theorem c4_text_touch_counterexample :
    (text.touchOne [107] 2 text.resultTouched).1 ≠ [] ∧
    (text.touchOne [107] 2 text.resultTouched).2 = none := by
  decide

/-- Claim C4 (amended): the text driver supports `Touch`: for each key it
writes the exchange `touch <key> <expiration>` (never the empty write) and
classifies the reply — `TOUCHED` as success, `NOT_FOUND` as the cache-miss
error, any other line as the unexpected-response error. -/
theorem c4_text_touch_is_supported (key : List Nat) (expiration : Int)
    (line : List Nat) :
    (text.touchOne key expiration line).1 =
      strBytes ("touch") ++ space ++ key ++ space ++ intDecimal expiration ++ crlf ∧
    (text.touchOne key expiration line).1 ≠ [] ∧
    (line = text.resultTouched → (text.touchOne key expiration line).2 = none) ∧
    (line = text.resultNotFound →
      (text.touchOne key expiration line).2 = some .ErrCacheMiss) ∧
    (line ≠ text.resultTouched → line ≠ text.resultNotFound →
      (text.touchOne key expiration line).2 = some (.protocolError line)) := by
  refine ⟨rfl, ?_, ?_, ?_, ?_⟩
  · intro hcontra
    simp [text.touchOne, strBytes] at hcontra
  · intro hline
    simp [text.touchOne, hline]
  · intro hline
    have : text.resultNotFound ≠ text.resultTouched := by decide
    simp [text.touchOne, hline, this]
  · intro h1 h2
    simp [text.touchOne, h1, h2]

/-- Claim C4 witness: on a concrete key, a `NOT_FOUND` reply to the touch
exchange maps to the cache-miss error, and an unexpected reply to the
unexpected-response error. -/
theorem c4_text_touch_is_supported_witness :
    (text.touchOne [107] 2 text.resultNotFound).2 = some .ErrCacheMiss ∧
    (text.touchOne [107] 2 text.resultEnd).2 =
      some (.protocolError text.resultEnd) :=
  ⟨(c4_text_touch_is_supported [107] 2 text.resultNotFound).2.2.2.1 rfl,
    (c4_text_touch_is_supported [107] 2 text.resultEnd).2.2.2.2
      (by decide) (by decide)⟩
